import Mathlib

/-
Verification of the portfolio repository: a Next.js + Payload CMS site.
The development shallowly embeds the repository's declarative artifacts
(the Projects collection schema, the page and layout components, the
Dockerfile, and the documented endpoint mounting rules) as Lean data and
functions, and proves the specified properties about them.
-/

namespace PortfolioSite

/-- Payload field types used in this repository's schema. -/
inductive FieldType where
  | text
  | textarea
  | upload
  deriving DecidableEq, Repr

/-- A single field of a Payload collection schema, as written in
`src/collections/Projects.ts`.  Keys that a field may omit are `Option`s
defaulting to `none`. -/
structure Field where
  name : String
  type : FieldType
  required : Option Bool := none
  relationTo : Option String := none
  label : Option String := none
  deriving DecidableEq, Repr

/-- The `admin` block of a collection config. -/
structure AdminConfig where
  useAsTitle : Option String := none
  deriving DecidableEq, Repr

/-- A custom REST endpoint declaration. -/
structure Endpoint where
  path : String
  method : String
  deriving DecidableEq, Repr

/-- A Payload collection config.  Optional top-level keys that a config may
leave undeclared (lifecycle hooks, access-control functions, custom
endpoints) are `Option`s defaulting to `none`; a config that does not write
the key leaves the default. -/
structure CollectionConfig where
  slug : String
  admin : Option AdminConfig := none
  fields : List Field := []
  hooks : Option (List String) := none
  access : Option (List String) := none
  endpoints : Option (List Endpoint) := none
  deriving DecidableEq, Repr

/-- The Projects collection, transcribed from `src/collections/Projects.ts`. -/
def Projects : CollectionConfig :=
  { slug := "projects"
  , admin := some { useAsTitle := some "title" }
  , fields :=
    [ { name := "title"
      , type := FieldType.text
      , required := some true
      , label := some "実績名" }
    , { name := "mainImage"
      , type := FieldType.upload
      , relationTo := some "media"
      , required := some false
      , label := some "メイン画像" }
    , { name := "url"
      , type := FieldType.text
      , label := some "サイトURL" }
    , { name := "description"
      , type := FieldType.textarea
      , label := some "説明文" } ] }

/-- C1 counterexample: the fourth field of the Projects schema, description,
does not have type text (its declared type is textarea). -/
theorem projects_description_not_text :
    ¬ ((Projects.fields.get? 3).map Field.type = some FieldType.text) := by
  decide

/-- C1 (amended): the Projects schema defines exactly four fields, in order
title (text, required true), mainImage, url (text) and description
(textarea); title is the only field marked required. -/
theorem projects_schema_fields :
    Projects.fields.map Field.name = ["title", "mainImage", "url", "description"] ∧
    (Projects.fields.get? 0).map Field.type = some FieldType.text ∧
    (Projects.fields.get? 0).map Field.required = some (some true) ∧
    (Projects.fields.get? 2).map Field.type = some FieldType.text ∧
    (Projects.fields.get? 3).map Field.type = some FieldType.textarea ∧
    (Projects.fields.filter (fun f => f.required = some true)).map Field.name
      = ["title"] := by
  decide

/-- C2: the mainImage field is a reference to a media asset: type upload,
relationTo the media collection, and explicitly not required. -/
theorem projects_mainImage_upload_media :
    (Projects.fields.get? 1).map Field.type = some FieldType.upload ∧
    (Projects.fields.get? 1).map Field.relationTo = some (some "media") ∧
    (Projects.fields.get? 1).map Field.required = some (some false) := by
  decide

/-- C3: the Projects collection config declares only a slug, an admin display
setting and the field schema; it registers no lifecycle hooks, no
access-control functions and no custom endpoints. -/
theorem projects_config_declares_only_schema :
    Projects.slug = "projects" ∧
    Projects.admin = some { useAsTitle := some "title" } ∧
    Projects.fields.length = 4 ∧
    Projects.hooks = none ∧
    Projects.access = none ∧
    Projects.endpoints = none := by
  decide

/-- A rendered element tree: the shallow embedding of JSX output.  An
element node carries its tag, its attribute list in source order, and its
children; `Link` components are elements with tag "Link". -/
inductive Node where
  | element (tag : String) (attrs : List (String × String)) (children : List Node)
  | text (s : String)

/-- The Header component, transcribed from
`src/components/Layout/Header.tsx`.  It takes no props; invocation is
modelled by applying it to `()`. -/
def Header (_invocation : Unit) : Node :=
  Node.element "header" [("className", "header")]
    [ Node.element "div" [("className", "header__inner")]
      [ Node.element "a" [("className", "header__logo"), ("href", "/")]
          [Node.text "Portfolio"]
      , Node.element "nav" [("className", "header__nav")]
        [ Node.element "a" [("href", "/")] [Node.text "Home"]
        , Node.element "a" [("href", "/about")] [Node.text "About"]
        , Node.element "a" [("href", "/works")] [Node.text "Works"]
        , Node.element "a" [("href", "/contact")] [Node.text "Contact"]
        , Node.element "Link" [("href", "/admin")] [Node.text "Admin"] ] ] ]

/-- A `next/font/google` font configuration as written in the layout file.
The source key `variable` is a Lean keyword, so it is embedded as
`cssVariable`. -/
structure GoogleFont where
  subsets : List String
  weight : List String
  cssVariable : String
  display : Option String := none
  deriving DecidableEq, Repr

/-- Main font of the layout. -/
def zenKaku : GoogleFont :=
  { subsets := ["latin"]
  , weight := ["500", "700"]
  , cssVariable := "--font-zen-kaku"
  , display := some "swap" }

/-- First sub font of the layout. -/
def dancingScript : GoogleFont :=
  { subsets := ["latin"]
  , weight := ["400", "700"]
  , cssVariable := "--font-dancing" }

/-- Second sub font of the layout. -/
def quicksand : GoogleFont :=
  { subsets := ["latin"]
  , weight := ["400", "700"]
  , cssVariable := "--font-quicksand" }

/-- The class attribute of the html element: the three font CSS variables
joined by spaces, as the template string in the layout interpolates them. -/
def fontClassName : String :=
  zenKaku.cssVariable ++ " " ++ dancingScript.cssVariable ++ " " ++
    quicksand.cssVariable

/-- The RootLayout component, transcribed from
`src/app/(frontend)/layout.tsx`. -/
def RootLayout (children : Node) : Node :=
  Node.element "html" [("lang", "ja"), ("className", fontClassName)]
    [ Node.element "body" []
      [ Header ()
      , Node.element "main" [] [children] ] ]

/-- Incoming request headers, as a list of name/value pairs. -/
def Headers := List (String × String)

/-- An authenticated CMS user, as far as the page needs one. -/
structure User where
  id : String
  deriving DecidableEq, Repr

/-- The observable effects HomePage can perform.  The constructors beyond
the four the component actually uses stand for the data accesses it could
have performed but does not (direct HTTP fetches, direct database
queries). -/
inductive Effect where
  | getHeaders
  | awaitConfig
  | getPayload
  | authCall
  | fetchHTTP (url : String)
  | dbQuery (q : String)
  deriving DecidableEq, Repr

/-- Effects that access data outside the CMS's in-process Local API. -/
def isExternalDataAccess : Effect → Bool
  | Effect.fetchHTTP _ => true
  | Effect.dbQuery _ => true
  | _ => false

/-- The result of running the HomePage server component once: the effects
it performed in order, the headers value it passed to payload.auth, and the
element tree it returned. -/
structure PageRun where
  effects : List Effect
  authCalledWith : Option Headers
  output : Node

/-- The element tree HomePage returns, transcribed from
`src/app/(frontend)/page.tsx`. -/
def homeOutput : Node :=
  Node.element "div" [("className", "home")]
    [ Node.element "section" [] [Node.text "ポートフォリオ"]
    , Node.element "section" [] [Node.text "ポートフォリオ１"]
    , Node.element "section" [] [Node.text "ポートフォリオ２"]
    , Node.element "section" [] [Node.text "ポートフォリオ３"]
    , Node.element "section" [] [Node.text "ポートフォリオ４"] ]

/-- The HomePage server component, transcribed from
`src/app/(frontend)/page.tsx`.  The resolution of payload.auth is an oracle
parameter `auth`; the component binds the resulting user (destructured from
the auth result in the source) and then returns the static tree. -/
def HomePage (auth : Headers → Option User) (headers : Headers) : PageRun :=
  let user := auth headers
  { effects :=
      [Effect.getHeaders, Effect.awaitConfig, Effect.getPayload, Effect.authCall]
  , authCalledWith := some headers
  , output := homeOutput }

/-- C4: the rendered output of HomePage is independent of the authenticated
user: for any two requests, whatever headers they carry and whatever user
payload.auth resolves, HomePage returns the same element tree. -/
theorem homePage_output_user_independent :
    ∀ (auth₁ auth₂ : Headers → Option User) (h₁ h₂ : Headers),
      (HomePage auth₁ h₁).output = (HomePage auth₂ h₂).output :=
  fun _ _ _ _ => rfl

/-- C6: HomePage obtains its CMS data exclusively through the in-process
Local API: its effect trace is exactly awaiting the request headers, the
payload config, getPayload, and the payload.auth call, the auth call
receives the incoming request headers, and no effect is an external data
access. -/
theorem homePage_local_api_only :
    ∀ (auth : Headers → Option User) (h : Headers),
      (HomePage auth h).effects =
        [Effect.getHeaders, Effect.awaitConfig, Effect.getPayload,
          Effect.authCall] ∧
      (HomePage auth h).authCalledWith = some h ∧
      (HomePage auth h).effects.all (fun e => !isExternalDataAccess e) = true :=
  fun _ _ => ⟨rfl, rfl, rfl⟩

/-- C10: the Header component is a constant function; every invocation
returns the same element, a header whose inner div holds a logo link to the
root path and a navigation with the five links Home, About, Works, Contact
and Admin, in order. -/
theorem header_constant_tree :
    (∀ u v : Unit, Header u = Header v) ∧
    Header () =
      Node.element "header" [("className", "header")]
        [ Node.element "div" [("className", "header__inner")]
          [ Node.element "a" [("className", "header__logo"), ("href", "/")]
              [Node.text "Portfolio"]
          , Node.element "nav" [("className", "header__nav")]
            [ Node.element "a" [("href", "/")] [Node.text "Home"]
            , Node.element "a" [("href", "/about")] [Node.text "About"]
            , Node.element "a" [("href", "/works")] [Node.text "Works"]
            , Node.element "a" [("href", "/contact")] [Node.text "Contact"]
            , Node.element "Link" [("href", "/admin")] [Node.text "Admin"] ] ] ] :=
  ⟨fun _ _ => rfl, rfl⟩

/-- C9: for every children value, RootLayout returns an html element with
lang ja and the three font CSS-variable classes, whose body contains the
Header followed by a main element wrapping the children unchanged; nothing
else in the output depends on the children. -/
theorem rootLayout_frame :
    fontClassName = "--font-zen-kaku --font-dancing --font-quicksand" ∧
    ∀ children : Node,
      RootLayout children =
        Node.element "html" [("lang", "ja"), ("className", fontClassName)]
          [ Node.element "body" []
            [ Header ()
            , Node.element "main" [] [children] ] ] :=
  ⟨rfl, fun _ => rfl⟩

/-- A Dockerfile instruction, as used by this repository's Dockerfile.  A
COPY carries the optional source stage of its --from flag, its sources and
its destination. -/
inductive Instr where
  | FROM (image : String) (stage : Option String)
  | WORKDIR (dir : String)
  | COPY (fromStage : Option String) (srcs : List String) (dst : String)
  | RUN (command : String)
  | ENV (key value : String)
  | EXPOSE (port : Nat)
  | CMD (argv : List String)
  deriving DecidableEq, Repr

/-- The repository's Dockerfile, transcribed instruction by instruction. -/
def dockerfile : List Instr :=
  [ Instr.FROM "node:22-alpine" (some "builder")
  , Instr.WORKDIR "/app"
  , Instr.COPY none ["package*.json"] "./"
  , Instr.RUN "npm install"
  , Instr.COPY none ["."] "."
  , Instr.RUN "npm run build"
  , Instr.FROM "node:22-alpine" (some "runner")
  , Instr.WORKDIR "/app"
  , Instr.ENV "NODE_ENV" "production"
  , Instr.COPY (some "builder") ["/app/public"] "./public"
  , Instr.COPY (some "builder") ["/app/.next/standalone"] "./"
  , Instr.COPY (some "builder") ["/app/.next/static"] "./.next/static"
  , Instr.EXPOSE 3000
  , Instr.ENV "PORT" "3000"
  , Instr.CMD ["node", "server.js"] ]

/-- Appends one instruction to a reversed list of reversed stages: a FROM
opens a new stage, anything else joins the current one. -/
def addInstrRev (acc : List (List Instr)) (i : Instr) : List (List Instr) :=
  match i, acc with
  | Instr.FROM _ _, _ => [i] :: acc
  | _, [] => [[i]]
  | _, s :: ss => (i :: s) :: ss

/-- Splits a Dockerfile into its build stages, each opened by a FROM. -/
def splitStages (d : List Instr) : List (List Instr) :=
  ((d.foldl addInstrRev []).map List.reverse).reverse

/-- Whether an instruction is a COPY. -/
def isCopy : Instr → Bool
  | Instr.COPY _ _ _ => true
  | _ => false

/-- The second (runner) stage of the repository's Dockerfile. -/
def runnerStage : List Instr := (splitStages dockerfile).getD 1 []

/-- C5: the container build has exactly two stages; the runner stage copies
from the builder only the public directory, the standalone build output and
the static assets, exposes port 3000 with PORT set to 3000, and starts the
standalone server via node server.js. -/
theorem dockerfile_two_stage_runner :
    (splitStages dockerfile).length = 2 ∧
    runnerStage.filter isCopy =
      [ Instr.COPY (some "builder") ["/app/public"] "./public"
      , Instr.COPY (some "builder") ["/app/.next/standalone"] "./"
      , Instr.COPY (some "builder") ["/app/.next/static"] "./.next/static" ] ∧
    Instr.EXPOSE 3000 ∈ runnerStage ∧
    Instr.ENV "PORT" "3000" ∈ runnerStage ∧
    runnerStage.getLast? = some (Instr.CMD ["node", "server.js"]) := by
  decide

/-- Where an endpoint is declared: on a collection, on a global, or at the
root of the CMS config. -/
inductive EndpointScope where
  | collection (slug : String)
  | globalScope (slug : String)
  | root
  deriving DecidableEq, Repr

/-- The URL an endpoint is mounted at, as the repository's custom-endpoint
documentation states: collection endpoints under the collection slug,
global endpoints under globals and the global slug, root endpoints directly
under api. -/
def mountPath : EndpointScope → String → String
  | EndpointScope.collection slug, path => "/api/" ++ slug ++ path
  | EndpointScope.globalScope slug, path => "/api/globals/" ++ slug ++ path
  | EndpointScope.root, path => "/api" ++ path

/-- The mount location the spec enumerates for auto-mounted routes: api
followed by the collection slug, globals and the global slug, or the bare
path. -/
def specMountPath : EndpointScope → String → String
  | EndpointScope.collection slug, path => "/api/" ++ slug ++ path
  | EndpointScope.globalScope slug, path => "/api/globals/" ++ slug ++ path
  | EndpointScope.root, path => "/api" ++ path

/-- C7: for every slug and endpoint path, the documented mounting rule
produces exactly the routes the spec enumerates: collection endpoints under
api and the collection slug, global endpoints under api globals and the
global slug, root endpoints under api. -/
theorem endpoint_mount_paths_match_spec :
    ∀ (scope : EndpointScope) (path : String),
      mountPath scope path = specMountPath scope path :=
  fun scope _ => by cases scope <;> rfl

/-- A statement of the repository-owned code, abstracted to what matters for
error handling: a call into the external framework (which may raise the
framework's own errors), a pure local binding, a throw of an error defined
by this repository, a catch branch, or the return of an element tree. -/
inductive Stmt where
  | callFramework (callee : String)
  | bindLocal (name : String)
  | throwOwn (errName : String)
  | catchBranch
  | retElement
  deriving DecidableEq, Repr

/-- One repository-owned module: the error types it defines and its
statements in order (an empty statement list is pure data). -/
structure ModuleCode where
  name : String
  errorTypesDefined : List String
  stmts : List Stmt
  deriving DecidableEq, Repr

/-- The Projects collection module: pure configuration data, no statements
and no error types. -/
def projectsModule : ModuleCode :=
  { name := "collections/Projects", errorTypesDefined := [], stmts := [] }

/-- The HomePage module body: four awaited framework calls (request headers,
payload config, getPayload, payload.auth) and the return of the static
tree. -/
def homePageModule : ModuleCode :=
  { name := "app/(frontend)/page"
  , errorTypesDefined := []
  , stmts :=
    [ Stmt.callFramework "next/headers.headers"
    , Stmt.callFramework "@/payload.config"
    , Stmt.callFramework "payload.getPayload"
    , Stmt.callFramework "payload.auth"
    , Stmt.retElement ] }

/-- The RootLayout module body: destructure the children prop and return the
tree. -/
def rootLayoutModule : ModuleCode :=
  { name := "app/(frontend)/layout"
  , errorTypesDefined := []
  , stmts := [Stmt.bindLocal "children", Stmt.retElement] }

/-- The Header module body: return the static tree. -/
def headerModule : ModuleCode :=
  { name := "components/Layout/Header"
  , errorTypesDefined := []
  , stmts := [Stmt.retElement] }

/-- All code owned by this repository. -/
def ownedModules : List ModuleCode :=
  [projectsModule, homePageModule, rootLayoutModule, headerModule]

/-- Whether a statement throws an error of the repository's own. -/
def throwsOwn : Stmt → Bool
  | Stmt.throwOwn _ => true
  | _ => false

/-- Whether a statement is an error-handling branch. -/
def isCatch : Stmt → Bool
  | Stmt.catchBranch => true
  | _ => false

/-- Whether evaluating a statement can raise at all: only calls into the
external framework can; local bindings and returns are pure. -/
def canRaise : Stmt → Bool
  | Stmt.callFramework _ => true
  | _ => false

/-- Whether a statement is a call into the external framework. -/
def isFrameworkCall : Stmt → Bool
  | Stmt.callFramework _ => true
  | _ => false

/-- C8: no repository-owned module defines an error type, throws, or
contains an error-handling branch, and every statement of theirs that can
raise is a call into the external framework. -/
theorem owned_code_no_error_handling :
    ownedModules.all (fun m =>
      m.errorTypesDefined.isEmpty &&
      m.stmts.all (fun s =>
        !throwsOwn s && !isCatch s && (!canRaise s || isFrameworkCall s)))
      = true := by
  decide

end PortfolioSite
